import Mathlib

/-!
Verification of the daiquiri logging library against its specification.

The development shallowly embeds the parts of the code the claims are
about:

-- daiquiri/__init__.py : KeywordArgumentAdapter.process, getLogger and
   its weak-value registry of adapters;
-- daiquiri/formatter.py : ColorFormatter.add_color / remove_color,
   ExtrasFormatter.add_extras / remove_extras and the composite
   ColorExtrasFormatter.format;
-- daiquiri/handlers.py : TTYDetectorStreamHandler.format;
-- daiquiri/output.py : _get_log_file_path.

Python dictionaries are modelled by association lists with CPython
insertion-order update semantics; Python exceptions by an Except monad;
mutation of a log record by explicit state passing.
-/

set_option maxRecDepth 4000

/-- Python exceptions relevant to the embedded code paths. -/
inductive PyError where
  | keyError
  | attributeError
  | valueError
  | typeError
  deriving DecidableEq, Repr

/-- Python values as they flow through the adapter: plain values are kept
as their str() rendering, nested dictionaries are kept structurally, and
selfDict marks the self-reference created by the source line
extra\x7b'_daiquiri_extra'\x7d = extra.  keyset models a value holding a
set of attribute names (the shape the formatter reads from the record
attribute _daiquiri_extra_keys, the iteration order kept as a list). -/
inductive PyVal where
  | str (s : String)
  | bool (b : Bool)
  | dict (entries : List (String × PyVal))
  | selfDict
  | keyset (ks : List String)

/-- A Python dict with string keys, as an insertion-ordered association list. -/
abbrev Dict := List (String × PyVal)

/-- Dictionary lookup, d[k] as an Option. -/
def dget (d : Dict) (k : String) : Option PyVal :=
  match d.find? (fun p => p.1 == k) with
  | some p => some p.2
  | none => none

/-- Dictionary membership, k in d. -/
def dmem (d : Dict) (k : String) : Bool :=
  d.any (fun p => p.1 == k)

/-- Dictionary assignment d[k] = v with CPython semantics: an existing key
keeps its position, a new key is appended. -/
def dinsert (d : Dict) (k : String) (v : PyVal) : Dict :=
  if dmem d k then d.map (fun p => if p.1 == k then (k, v) else p)
  else d ++ [(k, v)]

/-- Dictionary deletion d.pop(k): remove every binding of k. -/
def dpop (d : Dict) (k : String) : Dict :=
  d.filter (fun p => p.1 != k)

/-- Assign every pair of l into d in order, skipping keys selected by skip.
With skip constantly false this is d.update(l); the adapter's keyword loop
is the same fold with skip selecting the reserved name. -/
def dinsertFold (skip : String → Bool) (l : List (String × PyVal)) (d : Dict) : Dict :=
  l.foldl (fun acc kv => if skip kv.1 then acc else dinsert acc kv.1 kv.2) d

/-- Python dict.update: d.update(e) folds assignments of e into d. -/
def dupdate (d e : Dict) : Dict :=
  dinsertFold (fun _ => false) e d

/-- The loop in KeywordArgumentAdapter.process (daiquiri/__init__.py
lines 50-53): for each name in a snapshot of kwargs' keys, skip
'exc_info', otherwise move the binding from kwargs into extra. -/
def processLoopAux (l : List (String × PyVal)) (p : Dict × Dict) : Dict × Dict :=
  l.foldl
    (fun q kv =>
      if kv.1 == "exc_info" then q
      else (dinsert q.1 kv.1 kv.2, dpop q.2 kv.1))
    p

/-- Entry point of the keyword-moving loop: iterate over the snapshot of
kwargs while popping from kwargs itself. -/
def processLoop (extra kwargs : Dict) : Dict × Dict :=
  processLoopAux kwargs (extra, kwargs)

/-- KeywordArgumentAdapter.process (daiquiri/__init__.py lines 42-56).
selfExtra is the adapter's constructor-time extra dict; kwargs is the
keyword mapping of the log call.  Returns the processed kwargs mapping
(the message is returned unchanged by the source, so it is omitted).
Updating extra with a non-mapping value raises TypeError in Python. -/
def KeywordArgumentAdapter.process (selfExtra kwargs : Dict) : Except PyError Dict :=
  match dget kwargs "extra" with
  | some (PyVal.dict e) =>
    let step := processLoop (dupdate selfExtra e) (dpop kwargs "extra")
    let extra := dinsert step.1 "_daiquiri_extra" PyVal.selfDict
    Except.ok (dinsert step.2 "extra" (PyVal.dict extra))
  | some _ => Except.error PyError.typeError
  | none =>
    let step := processLoop selfExtra kwargs
    let extra := dinsert step.1 "_daiquiri_extra" PyVal.selfDict
    Except.ok (dinsert step.2 "extra" (PyVal.dict extra))

/-- A logging.LogRecord restricted to the fields the claims touch.  The
scratch attributes attached and removed during formatting (color,
color_stop, extras, _stream_is_a_tty) are Options: none models the
attribute being absent from the record's __dict__.  attrs holds the
caller-supplied extra attributes with their str() renderings;
daiquiri_extra_keys models the _daiquiri_extra_keys attribute. -/
structure LogRecord where
  name : String
  levelno : Nat
  levelname : String
  msg : String
  attrs : List (String × String)
  daiquiri_extra_keys : Option (List String)
  stream_is_a_tty : Option Bool
  color : Option String
  color_stop : Option String
  extras : Option String
  deriving DecidableEq, Repr

/-- The str() rendering used when a value is interpolated into text.
Dictionary values are never rendered by the claims' code paths, so their
rendering is opaque. -/
def pyStr : PyVal → String
  | PyVal.str s => s
  | PyVal.bool b => if b then "True" else "False"
  | PyVal.dict _ => "<dict>"
  | PyVal.selfDict => "<dict>"
  | PyVal.keyset _ => "<set>"

/-- Attribute names logging.Logger.makeRecord refuses to overwrite: the
LogRecord constructor attributes plus message and asctime. -/
def reservedRecordAttrs : List String :=
  ["name", "msg", "args", "levelname", "levelno", "pathname", "filename",
   "module", "exc_info", "exc_text", "stack_info", "lineno", "funcName",
   "created", "msecs", "relativeCreated", "thread", "threadName",
   "processName", "process", "message", "asctime"]

/-- logging.Logger.makeRecord restricted to what the claims need: each key
of the extra mapping becomes a record attribute, raising KeyError when a
key collides with a built-in record attribute.  The distinguished
_daiquiri_extra_keys attribute is exposed as the record's key-set field
when its value is a key set. -/
def makeRecord (name : String) (levelno : Nat) (levelname msg : String)
    (extra : Dict) : Except PyError LogRecord :=
  if extra.any (fun p => reservedRecordAttrs.contains p.1) then
    Except.error PyError.keyError
  else
    Except.ok
      { name := name, levelno := levelno, levelname := levelname, msg := msg,
        attrs := extra.map (fun p => (p.1, pyStr p.2)),
        daiquiri_extra_keys :=
          match dget extra "_daiquiri_extra_keys" with
          | some (PyVal.keyset ks) => some ks
          | _ => none,
        stream_is_a_tty := none, color := none, color_stop := none,
        extras := none }

/-- getattr(record, k) for the caller-supplied extra attributes, as the
str() rendering stored on the record. -/
def getattrStr (r : LogRecord) (k : String) : Option String :=
  match r.attrs.find? (fun p => p.1 == k) with
  | some p => some p.2
  | none => none

/-- ColorFormatter.LEVEL_COLORS (daiquiri/formatter.py lines 32-38): the
fixed palette keyed by numeric level; logging.WARN and logging.WARNING are
the same number 30, so the table has five keys 10, 20, 30, 40, 50. -/
def LEVEL_COLORS (levelno : Nat) : Option String :=
  if levelno == 10 then some "\x1b[00;32m"
  else if levelno == 20 then some "\x1b[00;36m"
  else if levelno == 30 then some "\x1b[01;33m"
  else if levelno == 40 then some "\x1b[01;31m"
  else if levelno == 50 then some "\x1b[01;31m"
  else none

/-- ColorFormatter.COLOR_STOP. -/
def COLOR_STOP : String := "\x1b[0m"

/-- ColorFormatter.add_color (daiquiri/formatter.py lines 42-48).  On a
TTY stream the palette is indexed directly, so an unmapped level raises
KeyError; off a TTY both codes are set to the empty string. -/
def add_color (r : LogRecord) : Except PyError LogRecord :=
  if r.stream_is_a_tty.getD false then
    match LEVEL_COLORS r.levelno with
    | some c => Except.ok { r with color := some c, color_stop := some COLOR_STOP }
    | none => Except.error PyError.keyError
  else
    Except.ok { r with color := some "", color_stop := some "" }

/-- ColorFormatter.remove_color: del record.color; del record.color_stop,
raising AttributeError when the attribute is absent. -/
def remove_color (r : LogRecord) : Except PyError LogRecord :=
  match r.color, r.color_stop with
  | some _, some _ => Except.ok { r with color := none, color_stop := none }
  | _, _ => Except.error PyError.attributeError

/-- Configuration of ExtrasFormatter.__init__ (daiquiri/formatter.py
lines 95-106).  The source field extras_prefix is embedded as extrasPre
because its name collides with a Lean keyword. -/
structure ExtrasConfig where
  keywords : List String
  extras_template : String
  extras_separator : String
  extrasPre : String
  extras_suffix : String
  deriving DecidableEq, Repr

/-- The defaults of ExtrasFormatter.__init__. -/
def defaultExtrasConfig : ExtrasConfig :=
  { keywords := [], extras_template := "[\x7b0\x7d: \x7b1\x7d]",
    extras_separator := " ", extrasPre := " ", extras_suffix := "" }

/-- str.format for a template over the two positional arguments used by
the source: every occurrence of the placeholders 0 and 1 in braces is
replaced by k and v respectively, simultaneously. -/
def substTemplate : List Char → List Char → List Char → List Char
  | [], _, _ => []
  | '\x7b' :: '0' :: '\x7d' :: rest, k, v => k ++ substTemplate rest k v
  | '\x7b' :: '1' :: '\x7d' :: rest, k, v => v ++ substTemplate rest k v
  | c :: rest, k, v => c :: substTemplate rest k v

/-- self.extras_template.format(k, getattr(record, k)) as a string map. -/
def strFormat2 (t k v : String) : String :=
  ⟨substTemplate t.data k.data v.data⟩

/-- Python str.join: sep.join(pieces). -/
def strJoin (sep : String) : List String → String
  | [] => ""
  | [x] => x
  | x :: y :: xs => x ++ sep ++ strJoin sep (y :: xs)

/-- The generator expression inside ExtrasFormatter.add_extras, applied
to the already-filtered key list: look each key up on the record
(getattr raises AttributeError when absent) and instantiate the
template. -/
def renderPieces (cfg : ExtrasConfig) (r : LogRecord) :
    List String → Except PyError (List String)
  | [] => Except.ok []
  | k :: ks =>
    match getattrStr r k with
    | none => Except.error PyError.attributeError
    | some v =>
      match renderPieces cfg r ks with
      | Except.error e => Except.error e
      | Except.ok rest => Except.ok (strFormat2 cfg.extras_template k v :: rest)

/-- ExtrasFormatter.add_extras (daiquiri/formatter.py lines 109-121).
Without the _daiquiri_extra_keys attribute the extras string is empty;
otherwise the non-suppressed keys are rendered in iteration order,
joined, and wrapped in the configured affixes when the joined string is
non-empty. -/
def add_extras (cfg : ExtrasConfig) (r : LogRecord) : Except PyError LogRecord :=
  match r.daiquiri_extra_keys with
  | none => Except.ok { r with extras := some "" }
  | some keys =>
    match renderPieces cfg r
        (keys.filter (fun k =>
          k != "_daiquiri_extra_keys" && !(cfg.keywords.contains k))) with
    | Except.error e => Except.error e
    | Except.ok pieces =>
      let ex := strJoin cfg.extras_separator pieces
      let exFinal := if ex != "" then cfg.extrasPre ++ ex ++ cfg.extras_suffix else ex
      Except.ok { r with extras := some exFinal }

/-- ExtrasFormatter.remove_extras: del record.extras. -/
def remove_extras (r : LogRecord) : Except PyError LogRecord :=
  match r.extras with
  | some _ => Except.ok { r with extras := none }
  | none => Except.error PyError.attributeError

/-- ExtrasFormatter.format (daiquiri/formatter.py lines 126-130): attach
the extras string, run the base template formatter (a pure function of
the record in this embedding), then delete the scratch attribute.  base
models logging.Formatter.format interpolating the configured fmt
string over the record's attributes. -/
def ExtrasFormatter.format (cfg : ExtrasConfig)
    (base : LogRecord → Except PyError String) (r : LogRecord) :
    Except PyError (String × LogRecord) :=
  match add_extras cfg r with
  | Except.error e => Except.error e
  | Except.ok r1 =>
    match base r1 with
    | Except.error e => Except.error e
    | Except.ok s =>
      match remove_extras r1 with
      | Except.error e => Except.error e
      | Except.ok r2 => Except.ok (s, r2)

/-- ColorExtrasFormatter.format (daiquiri/formatter.py lines 136-140):
add_color, delegate to ExtrasFormatter.format, remove_color. -/
def ColorExtrasFormatter.format (cfg : ExtrasConfig)
    (base : LogRecord → Except PyError String) (r : LogRecord) :
    Except PyError (String × LogRecord) :=
  match add_color r with
  | Except.error e => Except.error e
  | Except.ok r1 =>
    match ExtrasFormatter.format cfg base r1 with
    | Except.error e => Except.error e
    | Except.ok (s, r2) =>
      match remove_color r2 with
      | Except.error e => Except.error e
      | Except.ok r3 => Except.ok (s, r3)

/-- The %-directive %(levelname)-8.8s: truncate to eight characters, then
pad on the right with spaces to width eight. -/
def padTrunc8 (s : String) : String :=
  ⟨s.data.take 8 ++ List.replicate (8 - (s.data.take 8).length) ' '⟩

/-- Interpolation of DEFAULT_EXTRAS_FORMAT (daiquiri/formatter.py lines
22-25) over a record: %(asctime)s [%(process)d] %(color)s
%(levelname)-8.8s %(name)s%(extras)s: %(message)s%(color_stop)s.
Reading a scratch attribute that is absent raises (KeyError from
%-interpolation over the record dict). -/
def defaultExtrasFormat (asctime pid : String) (r : LogRecord) :
    Except PyError String :=
  match r.color, r.color_stop, r.extras with
  | some c, some cs, some ex =>
    Except.ok (asctime ++ " [" ++ pid ++ "] " ++ c ++ padTrunc8 r.levelname
      ++ " " ++ r.name ++ ex ++ ": " ++ r.msg ++ cs)
  | _, _, _ => Except.error PyError.keyError

/-- A Python stream as seen by the TTY probe: whether it has an isatty
method, and what calling isatty does. -/
structure PyStream where
  hasIsatty : Bool
  isattyResult : Except PyError Bool

/-- The TTY probe inside TTYDetectorStreamHandler.format
(daiquiri/handlers.py lines 103-110): no isatty method means False, a
ValueError from a closed stream means False, any other outcome is
passed through. -/
def ttyProbe (st : PyStream) : Except PyError Bool :=
  if st.hasIsatty then
    match st.isattyResult with
    | Except.ok b => Except.ok b
    | Except.error PyError.valueError => Except.ok false
    | Except.error e => Except.error e
  else Except.ok false

/-- TTYDetectorStreamHandler.format (daiquiri/handlers.py lines 102-113):
set the _stream_is_a_tty scratch attribute from the probe, delegate to
the attached formatter, then delete the scratch attribute (it is always
present at the deletion site). -/
def TTYDetectorStreamHandler.format (st : PyStream) (cfg : ExtrasConfig)
    (base : LogRecord → Except PyError String) (r : LogRecord) :
    Except PyError (String × LogRecord) :=
  match ttyProbe st with
  | Except.error e => Except.error e
  | Except.ok b =>
    match ColorExtrasFormatter.format cfg base { r with stream_is_a_tty := some b } with
    | Except.error e => Except.error e
    | Except.ok (s, r2) => Except.ok (s, { r2 with stream_is_a_tty := none })

/-- A KeywordArgumentAdapter as stored by getLogger: its identity (Python
object identity), the wrapped logger name and the constructor-time
keyword arguments kept as self.extra. -/
structure Adapter where
  adapterId : Nat
  loggerName : Option String
  extra : Dict

/-- The module-level _LOGGERS weak-value dictionary together with an
allocation counter for object identities.  An entry is present exactly
while its adapter is still referenced; garbage collection would remove
entries, never alter them. -/
structure LoggerRegistry where
  loggers : List (Option String × Adapter)
  nextId : Nat

/-- Lookup of _LOGGERS[name]. -/
def regFind (s : LoggerRegistry) (name : Option String) : Option Adapter :=
  match s.loggers.find? (fun p => p.1 == name) with
  | some p => some p.2
  | none => none

/-- daiquiri.getLogger (daiquiri/__init__.py lines 62-74): return the
cached adapter when the name is present, otherwise construct a new
adapter from the call's keyword arguments and cache it. -/
def getLogger (s : LoggerRegistry) (name : Option String) (kwargs : Dict) :
    Adapter × LoggerRegistry :=
  match regFind s name with
  | some a => (a, s)
  | none =>
    let a : Adapter := { adapterId := s.nextId, loggerName := name, extra := kwargs }
    (a, { loggers := s.loggers ++ [(name, a)], nextId := s.nextId + 1 })

/-- Python truthiness of an optional string: None and the empty string
are falsy. -/
def truthyStr : Option String → Bool
  | none => false
  | some t => t != ""

/-- os.path.join for two POSIX path components, as used by the source:
an absolute second component wins; otherwise a separator is inserted
unless the first component is empty or already ends with one. -/
def pyJoin (d f : String) : String :=
  if f.data.take 1 == ['/'] then f
  else if d == "" then f
  else if d.data.getLast? == some '/' then d ++ f
  else d ++ "/" ++ f

/-- daiquiri.output._get_log_file_path (daiquiri/output.py lines 53-74).
detected stands for the value get_program_name() would return; the
suffix argument is logfile_suffix.  A falsy final path raises
ValueError. -/
def get_log_file_path (logfile logdir program_name : Option String)
    (detected : String) (logfile_suffix : String) : Except String String :=
  let ret0 : Option String := if truthyStr logdir then none else logfile
  let ret1 : Option String :=
    if !(truthyStr ret0) && truthyStr logfile && truthyStr logdir then
      some (pyJoin (logdir.getD "") (logfile.getD ""))
    else ret0
  let ret2 : Option String :=
    if !(truthyStr ret1) && truthyStr logdir then
      some (pyJoin (logdir.getD "")
        (if truthyStr program_name then program_name.getD "" else detected)
        ++ logfile_suffix)
    else ret1
  if truthyStr ret2 then Except.ok (ret2.getD "")
  else Except.error "Unable to determine log file destination"

/-- Modelled from the spec's description of log-file path resolution:
return the filename when no directory is given, join directory and
filename when both are given, join the directory with the (possibly
auto-detected) program name plus the suffix when only a directory is
given, and fail with a descriptive error when no destination can be
determined. -/
def logFilePathSpec (logfile logdir program_name : Option String)
    (detected : String) (logfile_suffix : String) : Except String String :=
  if truthyStr logdir then
    if truthyStr logfile then
      Except.ok (pyJoin (logdir.getD "") (logfile.getD ""))
    else
      Except.ok (pyJoin (logdir.getD "")
        (if truthyStr program_name then program_name.getD "" else detected)
        ++ logfile_suffix)
  else
    if truthyStr logfile then Except.ok (logfile.getD "")
    else Except.error "Unable to determine log file destination"

/-- Modelled from the spec's description of the extras renderer: the
remaining entries after suppression, formatted as [key: value], joined
by the separator in the order carried by the extra-keys set, with the
affixes attached only when at least one entry remains. -/
def renderExtrasSpec (keywords : List String) (sep pre suf : String)
    (r : LogRecord) (keys : List String) : String :=
  let kept := keys.filter (fun k =>
    k != "_daiquiri_extra_keys" && !(keywords.contains k))
  let entries := kept.map (fun k => "[" ++ k ++ ": " ++ (getattrStr r k).getD "" ++ "]")
  if entries.isEmpty then ""
  else pre ++ strJoin sep entries ++ suf

/-- The logging call path glued from the embedded pieces, as test
test_extra_with_two_loggers exercises it: the adapter's process builds
the extra mapping, makeRecord attaches it to a fresh record, and the
stream handler formats the record with the TEXT_FORMATTER defaults
(ColorExtrasFormatter over DEFAULT_EXTRAS_FORMAT). -/
def emitLine (st : PyStream) (adapterExtra : Dict) (loggerName : String)
    (levelno : Nat) (levelname msg : String) (asctime pid : String) :
    Except PyError String :=
  match KeywordArgumentAdapter.process adapterExtra [] with
  | Except.error e => Except.error e
  | Except.ok kw =>
    match dget kw "extra" with
    | some (PyVal.dict extra) =>
      match makeRecord loggerName levelno levelname msg extra with
      | Except.error e => Except.error e
      | Except.ok rec0 =>
        match TTYDetectorStreamHandler.format st defaultExtrasConfig
            (defaultExtrasFormat asctime pid) rec0 with
        | Except.error e => Except.error e
        | Except.ok (s, _) => Except.ok s
    | _ => Except.error PyError.keyError

/-- An io.StringIO stream: it has an isatty method which returns False. -/
def stringIOStream : PyStream := { hasIsatty := true, isattyResult := Except.ok false }

/-- A stream without an isatty method. -/
def noIsattyStream : PyStream := { hasIsatty := false, isattyResult := Except.ok false }

/-- The empty logger registry at interpreter start. -/
def emptyRegistry : LoggerRegistry := { loggers := [], nextId := 0 }

/-- A plain record carrying no scratch attributes and no extra-field side
channel, as produced by the base logging entry point. -/
def sampleRecord : LogRecord :=
  { name := "my_module", levelno := 20, levelname := "INFO", msg := "hello",
    attrs := [], daiquiri_extra_keys := none, stream_is_a_tty := none,
    color := none, color_stop := none, extras := none }

/-- A record carrying an extra-keys side channel with two fields. -/
def extrasRecord : LogRecord :=
  { name := "my_module", levelno := 20, levelname := "INFO", msg := "hello",
    attrs := [("a", "1"), ("b", "2")],
    daiquiri_extra_keys := some ["a", "b"], stream_is_a_tty := none,
    color := none, color_stop := none, extras := none }

/-- Python str.endswith, as the test's line assertions use it. -/
def strEndsWith (s t : String) : Bool :=
  t.data.isSuffixOf s.data

/-- A record on a TTY stream whose severity 25 is outside the five-entry
palette. -/
def level25Record : LogRecord :=
  { name := "foobar", levelno := 25, levelname := "Level 25", msg := "m",
    attrs := [], daiquiri_extra_keys := none, stream_is_a_tty := some true,
    color := none, color_stop := none, extras := none }

/-- The caller-supplied extra mapping of the C5 collision scenario. -/
def c5e : Dict := [("k", PyVal.str "fromextra")]

/-- The call kwargs of the C5 collision scenario: an extra mapping and an
ad-hoc keyword argument sharing the key k. -/
def c5kwargs : Dict := [("extra", PyVal.dict c5e), ("k", PyVal.str "fromkw")]


theorem add_color_ok_shape (r r1 : LogRecord) (h : add_color r = Except.ok r1) :
    ∃ c cs, r1 = { r with color := some c, color_stop := some cs } := by
  unfold add_color at h
  split at h
  · split at h
    · cases h; exact ⟨_, _, rfl⟩
    · cases h
  · cases h; exact ⟨_, _, rfl⟩

theorem add_extras_ok_shape (cfg : ExtrasConfig) (r r1 : LogRecord)
    (h : add_extras cfg r = Except.ok r1) :
    ∃ e, r1 = { r with extras := some e } := by
  unfold add_extras at h
  split at h
  · cases h; exact ⟨_, rfl⟩
  · split at h
    · cases h
    · cases h; exact ⟨_, rfl⟩

/-- C1: For every log record (with the scratch attributes absent, as on
every record handed to a formatter), a successful
ColorExtrasFormatter.format returns the record exactly as received —
the scratch fields color, color_stop and extras are removed — and
formatting the returned record again yields the same output string and
the same record. -/
theorem c1_composite_format_idempotent (cfg : ExtrasConfig)
    (base : LogRecord → Except PyError String) (r : LogRecord)
    (hc : r.color = none) (hcs : r.color_stop = none) (he : r.extras = none)
    (s : String) (r' : LogRecord)
    (hok : ColorExtrasFormatter.format cfg base r = Except.ok (s, r')) :
    r' = r ∧ ColorExtrasFormatter.format cfg base r' = Except.ok (s, r') := by
  have hr : r' = r := by
    unfold ColorExtrasFormatter.format at hok
    split at hok
    · cases hok
    next r1 hac =>
      obtain ⟨c, cs, rfl⟩ := add_color_ok_shape r r1 hac
      split at hok
      · cases hok
      next s2 r2 hef =>
        unfold ExtrasFormatter.format at hef
        split at hef
        · cases hef
        next r1e hae =>
          obtain ⟨e, rfl⟩ := add_extras_ok_shape cfg _ r1e hae
          split at hef
          · cases hef
          next s0 hbase =>
            split at hef
            · cases hef
            next r2e hre =>
              have hre' : r2e =
                  { r with color := some c, color_stop := some cs, extras := none } := by
                have : remove_extras
                    { r with color := some c, color_stop := some cs, extras := some e }
                    = Except.ok
                      { r with color := some c, color_stop := some cs, extras := none } := rfl
                rw [this] at hre
                cases hre; rfl
              cases hef
              subst hre'
              split at hok
              · cases hok
              next r3 hrc =>
                have : remove_color
                    { r with color := some c, color_stop := some cs, extras := none }
                    = Except.ok { r with color := none, color_stop := none, extras := none } :=
                  rfl
                rw [this] at hrc
                cases hrc
                cases hok
                cases r
                simp_all
  refine ⟨hr, ?_⟩
  rw [hr] at hok ⊢
  exact hok

/-- C2 (code bug): replaying test_extra_with_two_loggers against the
embedded source.  The first line carries the claimed suffix, but the
second does not: getLogger returns the cached first adapter so the
key="value" keyword of the second getLogger call is dropped, and the
mapper records extras under _daiquiri_extra while the renderer reads
_daiquiri_extra_keys, so no extras are ever rendered — the second line
ends in "WARNING  foobar: boo" instead of
"WARNING  foobar [key: value]: boo". -/
theorem c2_extra_pipeline_diverges :
    (getLogger emptyRegistry (some "foobar") []).1.extra = [] ∧
    (getLogger (getLogger emptyRegistry (some "foobar") []).2 (some "foobar")
        [("key", PyVal.str "value")]).1.extra = [] ∧
    emitLine stringIOStream [] "foobar" 40 "ERROR" "argh" "t" "1"
      = Except.ok "t [1] ERROR    foobar: argh" ∧
    emitLine stringIOStream [] "foobar" 30 "WARNING" "boo" "t" "1"
      = Except.ok "t [1] WARNING  foobar: boo" ∧
    strEndsWith "t [1] ERROR    foobar: argh" "ERROR    foobar: argh" = true ∧
    strEndsWith "t [1] WARNING  foobar: boo" "WARNING  foobar [key: value]: boo" = false :=
  ⟨rfl, rfl, rfl, rfl, rfl, rfl⟩

/-- C4 (code bug): the adapter's keyword loop only skips exc_info, so a
stack_info keyword is removed from the call's kwargs and merged into the
extra-fields mapping; downstream, makeRecord refuses to overwrite the
built-in stack_info record attribute and raises KeyError, which is what
makes test_special_kwargs fail. -/
theorem c4_stack_info_moved :
    KeywordArgumentAdapter.process []
        [("stack_info", PyVal.bool true), ("exc_info", PyVal.bool true)]
      = Except.ok [("exc_info", PyVal.bool true),
          ("extra", PyVal.dict
            [("stack_info", PyVal.bool true),
             ("_daiquiri_extra", PyVal.selfDict)])] ∧
    makeRecord "foobar" 20 "INFO" "foobar"
        [("stack_info", PyVal.bool true), ("_daiquiri_extra", PyVal.selfDict)]
      = Except.error PyError.keyError :=
  ⟨rfl, rfl⟩

/-- C9: once an adapter for a name is cached (and still referenced, so
its registry entry persists), every later getLogger call for that name
returns that very adapter and leaves the registry unchanged, silently
ignoring the new keyword arguments; a fresh name caches an adapter whose
constructor-time extra dict is exactly the first call's kwargs. -/
theorem c9_getLogger_cached (s : LoggerRegistry) (name : Option String)
    (kwargs kwargs2 : Dict) (a : Adapter) :
    (regFind s name = some a → getLogger s name kwargs2 = (a, s)) ∧
    (regFind s name = none →
      regFind (getLogger s name kwargs).2 name = some (getLogger s name kwargs).1 ∧
      (getLogger s name kwargs).1.extra = kwargs ∧
      getLogger (getLogger s name kwargs).2 name kwargs2
        = ((getLogger s name kwargs).1, (getLogger s name kwargs).2)) := by
  constructor
  · intro h
    unfold getLogger
    rw [h]
  · intro h
    have hf : s.loggers.find? (fun p => p.1 == name) = none := by
      unfold regFind at h
      split at h
      · cases h
      · assumption
    have hg : getLogger s name kwargs
        = ({ adapterId := s.nextId, loggerName := name, extra := kwargs },
           { loggers := s.loggers
               ++ [(name, { adapterId := s.nextId, loggerName := name, extra := kwargs })],
             nextId := s.nextId + 1 }) := by
      unfold getLogger
      rw [h]
    have hr' : regFind
        { loggers := s.loggers
            ++ [(name, { adapterId := s.nextId, loggerName := name, extra := kwargs })],
          nextId := s.nextId + 1 } name
        = some { adapterId := s.nextId, loggerName := name, extra := kwargs } := by
      unfold regFind
      simp only [List.find?_append, hf]
      simp [List.find?]
    rw [hg]
    refine ⟨hr', rfl, ?_⟩
    unfold getLogger
    rw [hr']

/-- Witness for C9: a fresh registry, a first call with no kwargs, then a
second call with key="value" that returns the same cached adapter. -/
theorem c9_getLogger_cached_witness :
    regFind (getLogger emptyRegistry (some "foobar") []).2 (some "foobar")
      = some (getLogger emptyRegistry (some "foobar") []).1 ∧
    (getLogger emptyRegistry (some "foobar") []).1.extra = [] ∧
    getLogger (getLogger emptyRegistry (some "foobar") []).2 (some "foobar")
        [("key", PyVal.str "value")]
      = ((getLogger emptyRegistry (some "foobar") []).1,
         (getLogger emptyRegistry (some "foobar") []).2) :=
  (c9_getLogger_cached emptyRegistry (some "foobar") [] [("key", PyVal.str "value")]
    { adapterId := 0, loggerName := some "foobar", extra := [] }).2 rfl

/-- C3 counterexample: a record at the non-standard severity 25 on a TTY
stream makes the color formatter raise KeyError — LEVEL_COLORS is indexed
directly, with no fallback — refuting the claim that formatting never
raises for unmapped severities on a terminal. -/
theorem c3_unmapped_severity_raises :
    ColorExtrasFormatter.format defaultExtrasConfig (defaultExtrasFormat "t" "1")
      level25Record = Except.error PyError.keyError := rfl

/-- C3 amended: when the destination stream is not a terminal, color
resolution never raises — both codes are empty for every severity; when
the stream is a terminal, a severity outside the five-entry palette
raises KeyError instead of falling back to a default. -/
theorem c3_color_unmapped_amended (r : LogRecord) :
    (r.stream_is_a_tty.getD false = false →
      add_color r = Except.ok { r with color := some "", color_stop := some "" }) ∧
    (r.stream_is_a_tty.getD false = true → LEVEL_COLORS r.levelno = none →
      add_color r = Except.error PyError.keyError) := by
  constructor
  · intro h
    unfold add_color
    rw [h]
    simp
  · intro h hl
    unfold add_color
    rw [h, hl]
    simp

/-- Witness for the amended C3 at concrete records. -/
theorem c3_color_unmapped_amended_witness :
    add_color sampleRecord
      = Except.ok { sampleRecord with color := some "", color_stop := some "" } ∧
    add_color level25Record = Except.error PyError.keyError :=
  ⟨(c3_color_unmapped_amended sampleRecord).1 rfl,
   (c3_color_unmapped_amended level25Record).2 rfl rfl⟩

/-- C7 counterexample: a record with no _daiquiri_extra_keys side channel
(level25Record has daiquiri_extra_keys = none) for which composite
formatting still raises, refuting "formatting succeeds rather than
raising" for every such record: on a TTY stream the color resolver
raises KeyError for the unmapped severity 25 even though the extras
renderer produced the empty extras string. -/
theorem c7_no_side_channel_still_raises :
    level25Record.daiquiri_extra_keys = none ∧
    add_extras defaultExtrasConfig level25Record
      = Except.ok { level25Record with extras := some "" } ∧
    ColorExtrasFormatter.format defaultExtrasConfig (defaultExtrasFormat "t" "1")
      level25Record = Except.error PyError.keyError :=
  ⟨rfl, rfl, rfl⟩

/-- C7 amended: a record with no _daiquiri_extra_keys side channel always
gets the empty extras string from the renderer, and composite formatting
of such a record succeeds and hands the record back unchanged whenever
color resolution does not itself fail — in particular whenever the
destination stream is not a terminal (the record as received, scratch
attributes absent); on a terminal an unmapped severity still raises from
the color resolver. -/
theorem c7_no_side_channel_safe (cfg : ExtrasConfig) (asctime pid : String)
    (r : LogRecord) (h : r.daiquiri_extra_keys = none) :
    add_extras cfg r = Except.ok { r with extras := some "" } ∧
    (r.stream_is_a_tty.getD false = false → r.color = none → r.color_stop = none →
      r.extras = none →
      ∃ s, ColorExtrasFormatter.format cfg (defaultExtrasFormat asctime pid) r
        = Except.ok (s, r)) := by
  constructor
  · unfold add_extras
    rw [h]
  · intro hst hc hcs he
    obtain ⟨n, lv, ln, m, as_, dk, st, c0, cs0, ex0⟩ := r
    dsimp only at h hst hc hcs he
    subst h hc hcs he
    cases st with
    | none => exact ⟨_, rfl⟩
    | some b =>
      cases b with
      | false => exact ⟨_, rfl⟩
      | true => simp at hst

/-- Witness for the amended C7 at a concrete record. -/
theorem c7_no_side_channel_safe_witness :
    add_extras defaultExtrasConfig sampleRecord
      = Except.ok { sampleRecord with extras := some "" } ∧
    ∃ s, ColorExtrasFormatter.format defaultExtrasConfig (defaultExtrasFormat "t" "1")
      sampleRecord = Except.ok (s, sampleRecord) :=
  ⟨(c7_no_side_channel_safe defaultExtrasConfig "t" "1" sampleRecord rfl).1,
   (c7_no_side_channel_safe defaultExtrasConfig "t" "1" sampleRecord rfl).2
     rfl rfl rfl rfl⟩

/-- C10: the TTY handler never propagates a probe failure of the two
covered kinds — a stream without isatty, or isatty raising ValueError —
the record is formatted as non-terminal output, and on every successful
format call (any stream) the returned record's _stream_is_a_tty scratch
flag has been removed. -/
theorem c10_tty_probe_safe (st st2 : PyStream) (cfg : ExtrasConfig)
    (base : LogRecord → Except PyError String) (r : LogRecord)
    (s : String) (r' : LogRecord)
    (h : st.hasIsatty = false ∨ st.isattyResult = Except.error PyError.valueError)
    (hfmt2 : TTYDetectorStreamHandler.format st2 cfg base r = Except.ok (s, r')) :
    ttyProbe st = Except.ok false ∧
    TTYDetectorStreamHandler.format st cfg base r =
      (match ColorExtrasFormatter.format cfg base
          { r with stream_is_a_tty := some false } with
       | Except.error e => Except.error e
       | Except.ok (s0, r2) => Except.ok (s0, { r2 with stream_is_a_tty := none })) ∧
    r'.stream_is_a_tty = none := by
  have hp : ttyProbe st = Except.ok false := by
    rcases h with h | h
    · unfold ttyProbe
      rw [h]
      simp
    · unfold ttyProbe
      rw [h]
      split <;> rfl
  refine ⟨hp, ?_, ?_⟩
  · unfold TTYDetectorStreamHandler.format
    rw [hp]
  · unfold TTYDetectorStreamHandler.format at hfmt2
    split at hfmt2
    · cases hfmt2
    · split at hfmt2
      · cases hfmt2
      · cases hfmt2
        rfl

/-- Witness for C10 on a stream without isatty. -/
theorem c10_tty_probe_safe_witness :
    ttyProbe noIsattyStream = Except.ok false ∧
    TTYDetectorStreamHandler.format noIsattyStream defaultExtrasConfig
      (defaultExtrasFormat "t" "1") sampleRecord =
      (match ColorExtrasFormatter.format defaultExtrasConfig
          (defaultExtrasFormat "t" "1")
          { sampleRecord with stream_is_a_tty := some false } with
       | Except.error e => Except.error e
       | Except.ok (s0, r2) => Except.ok (s0, { r2 with stream_is_a_tty := none })) ∧
    sampleRecord.stream_is_a_tty = none :=
  c10_tty_probe_safe noIsattyStream noIsattyStream defaultExtrasConfig
    (defaultExtrasFormat "t" "1") sampleRecord
    "t [1] INFO     my_module: hello" sampleRecord (Or.inl rfl) rfl

/-- Witness for C1 at a concrete record and the default TEXT_FORMATTER
configuration. -/
theorem c1_composite_format_idempotent_witness :
    sampleRecord = sampleRecord ∧
    ColorExtrasFormatter.format defaultExtrasConfig (defaultExtrasFormat "t" "1")
      sampleRecord
      = Except.ok ("t [1] INFO     my_module: hello", sampleRecord) :=
  c1_composite_format_idempotent defaultExtrasConfig (defaultExtrasFormat "t" "1")
    sampleRecord rfl rfl rfl "t [1] INFO     my_module: hello" sampleRecord rfl

theorem find?_replace (d : Dict) (k : String) (v : PyVal) :
    (d.map (fun p => if p.1 == k then (k, v) else p)).find? (fun p => p.1 == k)
      = if d.any (fun p => p.1 == k) then some (k, v) else none := by
  induction d with
  | nil => rfl
  | cons p ps ih =>
    by_cases hp : p.1 == k
    · simp [List.find?, hp]
    · simp only [List.map_cons, List.find?, List.any_cons]
      rw [if_neg (by simpa using hp)]
      simp only [hp, Bool.false_or]
      exact ih

theorem find?_replace_ne (d : Dict) (k k' : String) (v : PyVal) (h : k ≠ k') :
    (d.map (fun p => if p.1 == k then (k, v) else p)).find? (fun p => p.1 == k')
      = d.find? (fun p => p.1 == k') := by
  induction d with
  | nil => rfl
  | cons p ps ih =>
    by_cases hp : (p.1 == k) = true
    · have hp' : p.1 = k := by simpa using hp
      have hpk : ¬ ((fun q : String × PyVal => q.1 == k') p) = true := by
        simp [hp', h]
      have hkk : ¬ ((fun q : String × PyVal => q.1 == k') (k, v)) = true := by
        simpa using h
      rw [List.map_cons, if_pos hp,
        @List.find?_cons_of_neg _ (fun q => q.1 == k') (k, v) _ hkk,
        @List.find?_cons_of_neg _ (fun q => q.1 == k') p ps hpk]
      exact ih
    · rw [List.map_cons, if_neg hp]
      by_cases hq : ((fun q : String × PyVal => q.1 == k') p) = true
      · rw [@List.find?_cons_of_pos _ (fun q => q.1 == k') p _ hq,
          @List.find?_cons_of_pos _ (fun q => q.1 == k') p ps hq]
      · rw [@List.find?_cons_of_neg _ (fun q => q.1 == k') p _ hq,
          @List.find?_cons_of_neg _ (fun q => q.1 == k') p ps hq]
        exact ih

theorem dget_dinsert_self (d : Dict) (k : String) (v : PyVal) :
    dget (dinsert d k v) k = some v := by
  by_cases hmem : dmem d k = true
  · have h1 : dinsert d k v = d.map (fun p => if p.1 == k then (k, v) else p) := by
      unfold dinsert
      rw [if_pos hmem]
    rw [h1]
    unfold dget
    rw [find?_replace,
      if_pos (show (List.any d fun p => p.1 == k) = true from hmem)]
  · have h1 : dinsert d k v = d ++ [(k, v)] := by
      unfold dinsert
      rw [if_neg hmem]
    have hfalse : dmem d k = false := by simpa using hmem
    have ha : d.find? (fun p => p.1 == k) = none :=
      List.find?_eq_none.mpr (List.any_eq_false.mp hfalse)
    rw [h1]
    unfold dget
    rw [List.find?_append, ha,
      @List.find?_cons_of_pos _ (fun p => p.1 == k) (k, v) [] (by simp)]
    rfl

theorem dget_dinsert_ne (d : Dict) (k k' : String) (v : PyVal) (h : k ≠ k') :
    dget (dinsert d k v) k' = dget d k' := by
  by_cases hmem : dmem d k = true
  · have h1 : dinsert d k v = d.map (fun p => if p.1 == k then (k, v) else p) := by
      unfold dinsert
      rw [if_pos hmem]
    rw [h1]
    unfold dget
    rw [find?_replace_ne d k k' v h]
  · have h1 : dinsert d k v = d ++ [(k, v)] := by
      unfold dinsert
      rw [if_neg hmem]
    have h2 : (([(k, v)] : Dict).find? (fun p => p.1 == k')) = none := by
      have hkk : ¬ ((fun q : String × PyVal => q.1 == k') (k, v)) = true := by
        simpa using h
      rw [@List.find?_cons_of_neg _ (fun q => q.1 == k') (k, v) [] hkk]
      rfl
    rw [h1]
    unfold dget
    rw [List.find?_append, h2]
    cases d.find? (fun p => p.1 == k') <;> rfl

theorem dinsertFold_cons (skip : String → Bool) (p : String × PyVal)
    (ps : List (String × PyVal)) (d : Dict) :
    dinsertFold skip (p :: ps) d
      = dinsertFold skip ps (if skip p.1 then d else dinsert d p.1 p.2) := rfl

theorem dget_dinsertFold_not_mem (skip : String → Bool) (l : List (String × PyVal))
    (d : Dict) (k : String) (h : ¬ k ∈ l.map Prod.fst) :
    dget (dinsertFold skip l d) k = dget d k := by
  induction l generalizing d with
  | nil => rfl
  | cons p ps ih =>
    simp only [List.map_cons, List.mem_cons, not_or] at h
    rw [dinsertFold_cons]
    by_cases hs : skip p.1 = true
    · rw [if_pos hs]
      exact ih d h.2
    · rw [if_neg hs]
      rw [ih (dinsert d p.1 p.2) h.2]
      exact dget_dinsert_ne d p.1 k p.2 (fun hpk => h.1 hpk.symm)

theorem dget_dinsertFold_mem (skip : String → Bool) (l : List (String × PyVal))
    (d : Dict) (k : String) (v : PyVal)
    (hnd : (l.map Prod.fst).Nodup) (hmem : (k, v) ∈ l) (hskip : skip k = false) :
    dget (dinsertFold skip l d) k = some v := by
  induction l generalizing d with
  | nil => cases hmem
  | cons p ps ih =>
    simp only [List.map_cons, List.nodup_cons] at hnd
    rw [dinsertFold_cons]
    rcases List.mem_cons.mp hmem with heq | htail
    · subst heq
      rw [if_neg (by simp [hskip])]
      rw [dget_dinsertFold_not_mem skip ps (dinsert d k v) k hnd.1]
      exact dget_dinsert_self d k v
    · by_cases hs : skip p.1 = true
      · rw [if_pos hs]
        exact ih d hnd.2 htail
      · rw [if_neg hs]
        exact ih (dinsert d p.1 p.2) hnd.2 htail

theorem processLoopAux_cons (q : String × PyVal) (qs : List (String × PyVal))
    (p : Dict × Dict) :
    processLoopAux (q :: qs) p
      = processLoopAux qs
          (if q.1 == "exc_info" then p
           else (dinsert p.1 q.1 q.2, dpop p.2 q.1)) := rfl

theorem processLoopAux_fst (l : List (String × PyVal)) (p : Dict × Dict) :
    (processLoopAux l p).1 = dinsertFold (fun k2 => k2 == "exc_info") l p.1 := by
  induction l generalizing p with
  | nil => rfl
  | cons q qs ih =>
    rw [processLoopAux_cons, dinsertFold_cons]
    by_cases hq : (q.1 == "exc_info") = true
    · rw [if_pos hq, if_pos hq]
      exact ih p
    · rw [if_neg hq, if_neg hq]
      exact ih (dinsert p.1 q.1 q.2, dpop p.2 q.1)

/-- C5: the merged extra mapping applies the caller-supplied extra
mapping first and then lets the ad-hoc keyword arguments override it:
the ad-hoc value wins for every key present among the kwargs, and a key
present only in the extra mapping keeps the extra mapping's value. -/
theorem c5_merge_priority (selfExtra e kwargs : Dict) (k : String) (vK vE : PyVal)
    (hnd : (kwargs.map Prod.fst).Nodup)
    (hnde : (e.map Prod.fst).Nodup)
    (he : dget kwargs "extra" = some (PyVal.dict e))
    (h1 : k ≠ "extra") (h2 : k ≠ "exc_info") (h3 : k ≠ "_daiquiri_extra") :
    ∃ res d, KeywordArgumentAdapter.process selfExtra kwargs = Except.ok res ∧
      dget res "extra" = some (PyVal.dict d) ∧
      ((k, vK) ∈ kwargs → dget d k = some vK) ∧
      (¬ k ∈ kwargs.map Prod.fst → (k, vE) ∈ e → dget d k = some vE) := by
  unfold KeywordArgumentAdapter.process
  rw [he]
  refine ⟨_, _, rfl, dget_dinsert_self _ "extra" _, ?_, ?_⟩
  · intro hm
    rw [dget_dinsert_ne _ "_daiquiri_extra" k PyVal.selfDict (fun hh => h3 hh.symm)]
    unfold processLoop
    rw [processLoopAux_fst]
    apply dget_dinsertFold_mem
    · have hsub : ((dpop kwargs "extra").map Prod.fst).Sublist (kwargs.map Prod.fst) :=
        (List.filter_sublist _).map Prod.fst
      exact hnd.sublist hsub
    · unfold dpop
      refine List.mem_filter.mpr ⟨hm, ?_⟩
      simpa using h1
    · simpa using h2
  · intro hnm hve
    rw [dget_dinsert_ne _ "_daiquiri_extra" k PyVal.selfDict (fun hh => h3 hh.symm)]
    unfold processLoop
    rw [processLoopAux_fst]
    rw [dget_dinsertFold_not_mem]
    · unfold dupdate
      exact dget_dinsertFold_mem (fun _ => false) e selfExtra k vE hnde hve rfl
    · intro hk
      apply hnm
      have hsub : ((dpop kwargs "extra").map Prod.fst).Sublist (kwargs.map Prod.fst) :=
        (List.filter_sublist _).map Prod.fst
      exact hsub.mem hk

/-- Witness for C5: extra supplies k = fromextra, the ad-hoc keyword
supplies k = fromkw, and the merged mapping holds fromkw. -/
theorem c5_merge_priority_witness :
    ∃ res d, KeywordArgumentAdapter.process [] c5kwargs = Except.ok res ∧
      dget res "extra" = some (PyVal.dict d) ∧
      dget d "k" = some (PyVal.str "fromkw") := by
  obtain ⟨res, d, hres, hd, hwin, _⟩ :=
    c5_merge_priority [] c5e c5kwargs "k" (PyVal.str "fromkw") (PyVal.str "fromextra")
      (by decide) (by decide) rfl (by decide) (by decide) (by decide)
  exact ⟨res, d, hres, hd, hwin (List.Mem.tail _ (List.Mem.head _))⟩

theorem str_append_ne_empty_left (a b : String) (ha : a ≠ "") : a ++ b ≠ "" := by
  intro hab
  apply ha
  rw [String.ext_iff] at hab ⊢
  rw [String.data_append] at hab
  exact (List.append_eq_nil.mp hab).1

theorem strJoin_cons_ne_empty (sep x : String) (xs : List String) (hx : x ≠ "") :
    strJoin sep (x :: xs) ≠ "" := by
  cases xs with
  | nil => simpa [strJoin] using hx
  | cons y ys =>
    unfold strJoin
    exact str_append_ne_empty_left (x ++ sep) _ (str_append_ne_empty_left x sep hx)

theorem strFormat2_default (k v : String) :
    strFormat2 "[\x7b0\x7d: \x7b1\x7d]" k v = "[" ++ k ++ ": " ++ v ++ "]" := by
  cases k with
  | mk kl =>
    cases v with
    | mk vl =>
      apply String.ext
      show substTemplate
        ['[', '\x7b', '0', '\x7d', ':', ' ', '\x7b', '1', '\x7d', ']'] kl vl
        = (("[" ++ String.mk kl ++ ": " ++ String.mk vl ++ "]") : String).data
      simp only [substTemplate]
      simp [String.data_append]

theorem renderPieces_all_present (cfg : ExtrasConfig) (r : LogRecord)
    (l : List String) (h : ∀ k2 ∈ l, (getattrStr r k2).isSome) :
    renderPieces cfg r l
      = Except.ok (l.map (fun k2 =>
          strFormat2 cfg.extras_template k2 ((getattrStr r k2).getD ""))) := by
  induction l with
  | nil => rfl
  | cons k ks ih =>
    obtain ⟨v, hv⟩ := Option.isSome_iff_exists.mp (h k (List.mem_cons_self k ks))
    unfold renderPieces
    rw [hv, ih (fun k2 hk2 => h k2 (List.mem_cons_of_mem k hk2))]
    simp [hv]

/-- C6: with the default entry template, add_extras renders exactly the
spec-side extras string: the non-suppressed keys in the order carried by
the extra-keys attribute, each as [key: value], joined by the configured
separator, with the configured affixes attached exactly when at least one
entry remains, and the empty string otherwise. -/
theorem c6_add_extras_renders_spec (keywords : List String) (sep pre suf : String)
    (r : LogRecord) (keys : List String)
    (hk : r.daiquiri_extra_keys = some keys)
    (hall : ∀ k2 ∈ keys.filter (fun k =>
        k != "_daiquiri_extra_keys" && !(keywords.contains k)),
      (getattrStr r k2).isSome) :
    add_extras { keywords := keywords, extras_template := "[\x7b0\x7d: \x7b1\x7d]",
                 extras_separator := sep, extrasPre := pre, extras_suffix := suf } r
      = Except.ok
          { r with extras := some (renderExtrasSpec keywords sep pre suf r keys) } := by
  unfold add_extras renderExtrasSpec
  rw [hk]
  dsimp only
  rw [renderPieces_all_present _ _ _ hall]
  dsimp only
  have hmap : (keys.filter (fun k =>
        k != "_daiquiri_extra_keys" && !(keywords.contains k))).map
        (fun k2 => strFormat2 "[\x7b0\x7d: \x7b1\x7d]" k2 ((getattrStr r k2).getD ""))
      = (keys.filter (fun k =>
          k != "_daiquiri_extra_keys" && !(keywords.contains k))).map
          (fun k2 => "[" ++ k2 ++ ": " ++ (getattrStr r k2).getD "" ++ "]") :=
    List.map_congr_left (fun a _ => strFormat2_default a _)
  rw [hmap]
  cases hkept : keys.filter (fun k =>
      k != "_daiquiri_extra_keys" && !(keywords.contains k)) with
  | nil => simp [strJoin]
  | cons k0 ks =>
    have hne : strJoin sep ((k0 :: ks).map
        (fun k2 => "[" ++ k2 ++ ": " ++ (getattrStr r k2).getD "" ++ "]")) ≠ "" := by
      rw [List.map_cons]
      apply strJoin_cons_ne_empty
      apply str_append_ne_empty_left
      apply str_append_ne_empty_left
      apply str_append_ne_empty_left
      exact str_append_ne_empty_left "[" k0 (by decide)
    have hb : (strJoin sep ((k0 :: ks).map
        (fun k2 => "[" ++ k2 ++ ": " ++ (getattrStr r k2).getD "" ++ "]")) != "")
        = true := by
      simpa using hne
    rw [if_pos hb, if_neg (by simp)]

/-- Witness for C6 at a record with extra fields a = 1 and b = 2 and the
default configuration. -/
theorem c6_add_extras_renders_spec_witness :
    add_extras { keywords := [], extras_template := "[\x7b0\x7d: \x7b1\x7d]",
                 extras_separator := " ", extrasPre := " ", extras_suffix := "" }
        extrasRecord
      = Except.ok
          { extrasRecord with
            extras := some (renderExtrasSpec [] " " " " "" extrasRecord ["a", "b"]) } :=
  c6_add_extras_renders_spec [] " " " " "" extrasRecord ["a", "b"] rfl (by decide)

theorem pyJoin_ne_empty (d f : String) (hd : d ≠ "") : pyJoin d f ≠ "" := by
  unfold pyJoin
  split
  next h1 =>
    intro hf
    rw [hf] at h1
    exact absurd h1 (by decide)
  next h1 =>
    split
    next h2 => exact absurd (by simpa using h2) hd
    next h2 =>
      split
      next h3 => exact str_append_ne_empty_left d f hd
      next h3 =>
        exact str_append_ne_empty_left _ _ (str_append_ne_empty_left d "/" hd)

/-- C8: log-file path resolution agrees with the spec's description on
every input: the filename alone when no directory is given, the joined
directory and filename when both are given, the directory joined with
the (possibly auto-detected) program name plus the suffix when only a
directory is given, and a descriptive configuration error when no
destination can be determined. -/
theorem c8_log_file_path_matches_spec (logfile logdir program_name : Option String)
    (detected : String) (logfile_suffix : String) :
    get_log_file_path logfile logdir program_name detected logfile_suffix
      = logFilePathSpec logfile logdir program_name detected logfile_suffix := by
  unfold get_log_file_path logFilePathSpec
  set pn := (if truthyStr program_name then program_name.getD "" else detected) with hpn
  cases logdir with
  | none =>
    cases logfile with
    | none => rfl
    | some f =>
      by_cases hf : f = ""
      · subst hf
        rfl
      · have hb : (f != "") = true := by simpa using hf
        simp [truthyStr, hb]
  | some dstr =>
    by_cases hdE : dstr = ""
    · subst hdE
      cases logfile with
      | none => rfl
      | some f =>
        by_cases hf : f = ""
        · subst hf
          rfl
        · have hb : (f != "") = true := by simpa using hf
          simp [truthyStr, hb]
    · have hd : (dstr != "") = true := by simpa using hdE
      cases logfile with
      | none =>
        have hb2 : (pyJoin dstr pn ++ logfile_suffix != "") = true := by
          simpa using str_append_ne_empty_left _ logfile_suffix (pyJoin_ne_empty dstr pn hdE)
        simp [truthyStr, hd, hb2]
      | some f =>
        by_cases hf : f = ""
        · subst hf
          have hb2 : (pyJoin dstr pn ++ logfile_suffix != "") = true := by
            simpa using str_append_ne_empty_left _ logfile_suffix (pyJoin_ne_empty dstr pn hdE)
          simp [truthyStr, hd, hb2]
        · have hb : (f != "") = true := by simpa using hf
          have hbj : (pyJoin dstr f != "") = true := by
            simpa using pyJoin_ne_empty dstr f hdE
          simp [truthyStr, hd, hb, hbj]
